import Mathlib

/-!
Verification of the TASK_1074 CLI pipeline (src/src/main.py): a JSON
record validator and aggregator.  The Python program is shallowly embedded:

* JSON values decoded by `json.load` become the inductive `JsonValue`.
  Python `bool` is a subclass of `int`, so the type checks
  `isinstance(v, int)` and `isinstance(v, (int, float))` are embedded as
  predicates that are true on the `bool` constructor as well.
* Python `dict`s are association lists looked up with `List.lookup`
  (dict keys are unique, so first-match lookup models dict access).
* Python `float` arithmetic is modelled exactly over `ℚ`; the claims under
  study are about exact sums, counts and averages of small literals.
* `str.strip()` is modelled by `String.trim` (leading/trailing whitespace
  removal); only ASCII whitespace is relevant to the claims.
* The side effects of `main` (printing, exit codes) are modelled by a pure
  `RunResult` record holding the exit code and the lines written to the
  standard output and standard error streams; the outcome of reading and
  decoding the input file is abstracted by `LoadResult`.
-/

/-- A decoded JSON value as produced by Python's `json.load`, with Python
booleans kept distinct from integers (in Python, `bool` is nevertheless a
subclass of `int`, which the `isPyInt` / `isPyNumber` predicates reflect). -/
inductive JsonValue where
  | null : JsonValue
  | bool : Bool → JsonValue
  | int : Int → JsonValue
  | float : ℚ → JsonValue
  | str : String → JsonValue
  | list : List JsonValue → JsonValue
  | obj : List (String × JsonValue) → JsonValue

/-- `isinstance(v, int)` in Python: true for `int` and for `bool`
(`bool` is a subclass of `int`), false for `float` and everything else. -/
def isPyInt : JsonValue → Bool
  | .int _ => true
  | .bool _ => true
  | _ => false

/-- `isinstance(v, (int, float))` in Python: true for `int`, `float`
and `bool`. -/
def isPyNumber : JsonValue → Bool
  | .int _ => true
  | .bool _ => true
  | .float _ => true
  | _ => false

/-- `str.strip()`: remove leading and trailing whitespace, written as a
structural recursion over the string's character list. -/
def pyStrip (s : String) : String :=
  ⟨(((s.data.dropWhile Char.isWhitespace).reverse.dropWhile
      Char.isWhitespace).reverse)⟩

/-- The check on line 30 of main.py:
`isinstance(v, str) and v.strip()` — a string that is non-empty after
trimming surrounding whitespace (an empty string is falsy in Python). -/
def isGoodName : JsonValue → Bool
  | .str s => !(pyStrip s).data.isEmpty
  | _ => false

/-- `float(v)` applied to a Python number (on a non-number, where the real
`float` would raise, the result is irrelevant and defaults to `0`;
`process_file` only applies it after validation has succeeded).
`float(True) = 1.0`, `float(False) = 0.0`. -/
def pyFloat : JsonValue → ℚ
  | .int n => (n : ℚ)
  | .float q => q
  | .bool b => if b then 1 else 0
  | _ => 0

/-- `validate_item` (main.py lines 20–35): checks, in order — the candidate
is an object; `id` present; `id` an int; `name` present; `name` a string
non-empty after stripping; `value` present; `value` a number.  Raising
`ValueError(msg)` is embedded as `Except.error msg`. -/
def validate_item : JsonValue → Except String Unit
  | .obj kvs =>
    match kvs.lookup "id" with
    | none => .error "missing field \x27id\x27"
    | some idv =>
      if !isPyInt idv then .error "field \x27id\x27 must be int"
      else
        match kvs.lookup "name" with
        | none => .error "missing field \x27name\x27"
        | some namev =>
          if !isGoodName namev then
            .error "field \x27name\x27 must be a non-empty string"
          else
            match kvs.lookup "value" with
            | none => .error "missing field \x27value\x27"
            | some valuev =>
              if !isPyNumber valuev then
                .error "field \x27value\x27 must be a number"
              else .ok ()
  | _ => .error "item must be an object"

/-- `float(item["value"])` for a validated item: the `value` field of an
object, coerced to floating point. -/
def itemFloat : JsonValue → ℚ
  | .obj kvs =>
    match kvs.lookup "value" with
    | some v => pyFloat v
    | none => 0
  | _ => 0

/-- The summary returned by `process_file`:
`{"count": count, "total_value": total, "avg_value": avg}`. -/
structure Summary where
  count : Nat
  total_value : ℚ
  avg_value : ℚ
deriving DecidableEq, Repr

/-- The `for item in data` loop of `process_file` (lines 48–51), with the
running total and count passed explicitly.  The first validation failure
propagates; otherwise the element's `value` is added and the count grows. -/
def processItems : List JsonValue → ℚ → Nat → Except String (ℚ × Nat)
  | [], total, count => .ok (total, count)
  | item :: rest, total, count =>
    match validate_item item with
    | .error e => .error e
    | .ok _ => processItems rest (total + itemFloat item) (count + 1)

/-- `process_file` after `json.load` (lines 43–54): shape check, the
validation/accumulation loop, then `avg = total / count if count else 0.0`. -/
def processData : JsonValue → Except String Summary
  | .list items =>
    match processItems items 0 0 with
    | .error e => .error e
    | .ok (total, count) =>
      .ok ⟨count, total, if count ≠ 0 then total / (count : ℚ) else 0⟩
  | _ => .error "input JSON must be a list"

/-- The outcome of opening and `json.load`-ing the input file, abstracted:
the file was read and decoded to a value, the file was missing
(`FileNotFoundError`), or the text failed to decode (`JSONDecodeError`).
The carried string is the exception's message `str(exc)`. -/
inductive LoadResult where
  | ok : JsonValue → LoadResult
  | notFound : String → LoadResult
  | malformed : String → LoadResult

/-- `json.dumps(summary)`: the single summary line printed on success.
The exact rendering of the two rational fields abstracts Python's float
formatting; no claim depends on it. -/
def summaryLine (s : Summary) : String :=
  "\x7b\"count\": " ++ toString s.count ++
    ", \"total_value\": " ++ toString s.total_value ++
    ", \"avg_value\": " ++ toString s.avg_value ++ "\x7d"

/-- The observable outcome of one run of `main`: the exit code and the
lines written to standard output and standard error. -/
structure RunResult where
  exitCode : Nat
  stdout : List String
  stderr : List String
deriving DecidableEq, Repr

/-- `main` on the `process` subcommand (main.py lines 66–81): run
`process_file`, print the summary to stdout and return 0, or catch the
exception (from loading, decoding, the shape check or validation), print
`Error: <message>` to stderr and return 1. -/
def runProcess (load : LoadResult) : RunResult :=
  match load with
  | .notFound msg => ⟨1, [], ["Error: " ++ msg]⟩
  | .malformed msg => ⟨1, [], ["Error: " ++ msg]⟩
  | .ok data =>
    match processData data with
    | .ok s => ⟨0, [summaryLine s], []⟩
    | .error e => ⟨1, [], ["Error: " ++ e]⟩

/-- Sum of the `value` fields of a list of items, coerced to float. -/
def sumFloats (items : List JsonValue) : ℚ := (items.map itemFloat).sum

/-! ## Helper lemmas -/

theorem sumFloats_nil : sumFloats [] = 0 := rfl

theorem sumFloats_cons (a : JsonValue) (rest : List JsonValue) :
    sumFloats (a :: rest) = itemFloat a + sumFloats rest := by
  simp [sumFloats]

/-- The accumulation loop on an all-valid list adds the sum of the `value`
fields to the total and the length to the count. -/
theorem processItems_all_ok (items : List JsonValue)
    (h : ∀ x ∈ items, validate_item x = .ok ()) (t : ℚ) (c : Nat) :
    processItems items t c = .ok (t + sumFloats items, c + items.length) := by
  induction items generalizing t c with
  | nil => simp [processItems, sumFloats]
  | cons a rest ih =>
    have ha : validate_item a = .ok () := h a (by simp)
    have hrest : ∀ x ∈ rest, validate_item x = .ok () :=
      fun x hx => h x (by simp [hx])
    simp only [processItems, ha, ih hrest, sumFloats_cons, List.length_cons]
    have ht : t + itemFloat a + sumFloats rest = t + (itemFloat a + sumFloats rest) := by
      ring
    have hc : c + 1 + rest.length = c + (rest.length + 1) := by omega
    rw [ht, hc]

/-- The accumulation loop hits the first invalid element and propagates
exactly its error, whatever comes after it. -/
theorem processItems_first_error (good : List JsonValue) (bad : JsonValue)
    (rest : List JsonValue) (e : String)
    (hgood : ∀ x ∈ good, validate_item x = .ok ())
    (hbad : validate_item bad = .error e) (t : ℚ) (c : Nat) :
    processItems (good ++ bad :: rest) t c = .error e := by
  induction good generalizing t c with
  | nil => rw [List.nil_append, processItems, hbad]
  | cons a g ih =>
    have ha : validate_item a = .ok () := hgood a (by simp)
    rw [List.cons_append, processItems, ha]
    exact ih (fun x hx => hgood x (by simp [hx])) _ _

/-! ## Concrete items used by witnesses (Scenario B of the spec) -/

/-- The record `{"id": 1, "name": "a", "value": 5.0}`. -/
def itemA : JsonValue :=
  .obj [("id", .int 1), ("name", .str "a"), ("value", .float 5)]

/-- The record `{"id": 2, "name": "b", "value": 15.0}`. -/
def itemB : JsonValue :=
  .obj [("id", .int 2), ("name", .str "b"), ("value", .float 15)]

/-! ## Claims -/

/-- C1: for every decoded input that is a list in which every element is a
valid record, `process_file` returns a summary whose `count` is the number
of elements, whose `total_value` is the sum of the elements' `value` fields
coerced to float, and whose `avg_value` is `total_value / count` when
`count > 0` (i.e. when the length is non-zero) and `0.0` when `count = 0`. -/
theorem C1_valid_list_summary (items : List JsonValue)
    (h : ∀ x ∈ items, validate_item x = .ok ()) :
    processData (.list items) =
      .ok ⟨items.length, sumFloats items,
        if items.length ≠ 0 then sumFloats items / (items.length : ℚ) else 0⟩ := by
  have hloop := processItems_all_ok items h 0 0
  simp [processData, hloop]

/-- Witness for C1 at Scenario B's input. -/
theorem C1_witness :
    processData (.list [itemA, itemB]) = .ok ⟨2, 20, 10⟩ := by
  have h := C1_valid_list_summary [itemA, itemB]
    (by intro x hx
        simp only [List.mem_cons, List.not_mem_nil, or_false] at hx
        rcases hx with rfl | rfl <;> rfl)
  rw [h]
  have h1 : itemFloat itemA = 5 := rfl
  have h2 : itemFloat itemB = 15 := rfl
  norm_num [sumFloats, h1, h2]

/-- C6: the empty input list succeeds with count 0, total 0.0 and average
0.0 (no division by zero), and the run exits with code 0. -/
theorem C6_empty_list :
    processData (.list []) = .ok ⟨0, 0, 0⟩ ∧
      (runProcess (.ok (.list []))).exitCode = 0 := by
  constructor <;> rfl

/-- C6 helper input for C4: the record `{"id": 2, "name": "missing value"}`
with no `value` key. -/
def itemMissingValue : JsonValue :=
  .obj [("id", .int 2), ("name", .str "missing value")]

/-- C4: an input list with an invalid element aborts at the first invalid
element in document order, propagates exactly that element's validation
failure, ignores everything after it (the tail is arbitrary, so later
elements are never validated), and produces no summary. -/
theorem C4_first_invalid_aborts (good : List JsonValue) (bad : JsonValue)
    (rest : List JsonValue) (e : String)
    (hgood : ∀ x ∈ good, validate_item x = .ok ())
    (hbad : validate_item bad = .error e) :
    processData (.list (good ++ bad :: rest)) = .error e := by
  simp [processData, processItems_first_error good bad rest e hgood hbad 0 0]

/-- Witness for C4: a valid record, then a record missing `value`, then a
junk element that is never looked at. -/
theorem C4_witness :
    processData (.list [itemA, itemMissingValue, .null]) =
      .error "missing field \x27value\x27" := by
  have h := C4_first_invalid_aborts [itemA] itemMissingValue [.null]
    "missing field \x27value\x27"
    (by intro x hx
        simp only [List.mem_cons, List.not_mem_nil, or_false] at hx
        subst hx
        rfl)
    rfl
  exact h

/-- C5: each run of the `process` subcommand has exactly one of two
outcomes — exit code 0 with one summary line on stdout and nothing on
stderr, or exit code 1 with one `Error: <message>` line on stderr and
nothing on stdout. -/
theorem C5_binary_outcome (load : LoadResult) :
    (∃ s, runProcess load = ⟨0, [summaryLine s], []⟩) ∨
      (∃ m, runProcess load = ⟨1, [], ["Error: " ++ m]⟩) := by
  cases load with
  | notFound msg => exact .inr ⟨msg, rfl⟩
  | malformed msg => exact .inr ⟨msg, rfl⟩
  | ok data =>
    cases hp : processData data with
    | ok s => exact .inl ⟨s, by simp [runProcess, hp]⟩
    | error e => exact .inr ⟨e, by simp [runProcess, hp]⟩

/-- C8: an input whose decoded content is not a list fails with the
`input JSON must be a list` diagnostic and the run exits with code 1. -/
theorem C8_not_a_list (data : JsonValue) (h : ∀ items, data ≠ .list items) :
    processData data = .error "input JSON must be a list" ∧
      runProcess (.ok data) =
        ⟨1, [], ["Error: input JSON must be a list"]⟩ := by
  cases data with
  | list items => exact absurd rfl (h items)
  | null => exact ⟨rfl, rfl⟩
  | bool b => exact ⟨rfl, rfl⟩
  | int n => exact ⟨rfl, rfl⟩
  | float q => exact ⟨rfl, rfl⟩
  | str s => exact ⟨rfl, rfl⟩
  | obj kvs => exact ⟨rfl, rfl⟩

/-- Scenario D's input: the single object `{"id":1,"name":"test","value":1}`
instead of a list. -/
def scenarioD : JsonValue :=
  .obj [("id", .int 1), ("name", .str "test"), ("value", .int 1)]

/-- Witness for C8 at Scenario D's input. -/
theorem C8_witness :
    processData scenarioD = .error "input JSON must be a list" ∧
      runProcess (.ok scenarioD) =
        ⟨1, [], ["Error: input JSON must be a list"]⟩ :=
  C8_not_a_list scenarioD (fun _ h => nomatch h)

/-- The record `{"id": true, "name": "a", "value": 1}` with a boolean `id`. -/
def itemBoolId : JsonValue :=
  .obj [("id", .bool true), ("name", .str "a"), ("value", .int 1)]

/-- C2 counterexample: a candidate whose `id` is the boolean `True` passes
validation, because Python's `isinstance(True, int)` is `True` (`bool` is a
subclass of `int`); the claimed wrong-type-for-id failure does not occur. -/
theorem C2_counterexample :
    validate_item itemBoolId = .ok () ∧
      validate_item itemBoolId ≠ .error "field \x27id\x27 must be int" := by
  refine ⟨rfl, ?_⟩
  intro h
  rw [show validate_item itemBoolId = .ok () from rfl] at h
  exact Except.noConfusion h

/-- C2 (amended): for a candidate mapping containing key `id`, the
wrong-type-for-id error is reported exactly when the value at `id` is not an
integer in the sense of the host type system — which excludes floating-point
values but, Python's `bool` being a subclass of `int`, accepts booleans. -/
theorem C2_amended_id_type (kvs : List (String × JsonValue)) (v : JsonValue)
    (hid : kvs.lookup "id" = some v) :
    (validate_item (.obj kvs) = .error "field \x27id\x27 must be int" ↔
      isPyInt v = false) := by
  rw [validate_item, hid]
  cases hv : isPyInt v with
  | false => simp [hv]
  | true =>
    cases hname : kvs.lookup "name" with
    | none => simp [hv, hname]
    | some w =>
      cases hw : isGoodName w with
      | false => simp [hv, hname, hw]
      | true =>
        cases hvalue : kvs.lookup "value" with
        | none => simp [hv, hname, hw, hvalue]
        | some u =>
          cases hu : isPyNumber u with
          | false => simp [hv, hname, hw, hvalue, hu]
          | true => simp [hv, hname, hw, hvalue, hu]

/-- Witness for the amended C2: a float `id` (the value 1.5) is rejected
with the wrong-type-for-id error. -/
theorem C2_amended_witness :
    validate_item
        (.obj [("id", .float (3 / 2)), ("name", .str "test"),
               ("value", .float (21 / 2))]) =
      .error "field \x27id\x27 must be int" := by
  have h := C2_amended_id_type
    [("id", .float (3 / 2)), ("name", .str "test"), ("value", .float (21 / 2))]
    (.float (3 / 2)) rfl
  exact h.mpr rfl

/-- The spec's reading of the Validator (§3 invariants, §4.1): the seven
checks form a fixed list — object shape, `id` presence, `id` type, `name`
presence, `name` type/non-emptiness, `value` presence, `value` type — each
evaluated independently of the others, and the reported failure is the
first failing check of that list.  This definition follows the spec's
words; the refinement theorem below compares it with `validate_item`. -/
def specFirstFailingCheck : JsonValue → Option String
  | .obj kvs =>
    (([((kvs.lookup "id").isNone, "missing field \x27id\x27"),
       ((kvs.lookup "id").any (fun v => !isPyInt v),
         "field \x27id\x27 must be int"),
       ((kvs.lookup "name").isNone, "missing field \x27name\x27"),
       ((kvs.lookup "name").any (fun v => !isGoodName v),
         "field \x27name\x27 must be a non-empty string"),
       ((kvs.lookup "value").isNone, "missing field \x27value\x27"),
       ((kvs.lookup "value").any (fun v => !isPyNumber v),
         "field \x27value\x27 must be a number")].find?
      (fun c => c.1)).map (fun c => c.2))
  | _ => some "item must be an object"

/-- C3: a candidate failing several checks is reported with exactly the
first failing check in the fixed order — object shape, then `id` presence,
`id` type, `name` presence, `name` type/non-emptiness, `value` presence,
`value` type (presence before type before content for each field):
`validate_item` coincides with the first-fail-wins reading of the check
list. -/
theorem C3_first_fail_wins (item : JsonValue) :
    validate_item item =
      (match specFirstFailingCheck item with
       | none => .ok ()
       | some e => .error e) := by
  cases item with
  | null => rfl
  | bool b => rfl
  | int n => rfl
  | float q => rfl
  | str s => rfl
  | list xs => rfl
  | obj kvs =>
    rw [validate_item, specFirstFailingCheck]
    cases hid : kvs.lookup "id" with
    | none => simp [hid]
    | some v =>
      cases hv : isPyInt v with
      | false => simp [hv]
      | true =>
        cases hname : kvs.lookup "name" with
        | none => simp [hv, hname]
        | some w =>
          cases hw : isGoodName w with
          | false => simp [hv, hw]
          | true =>
            cases hvalue : kvs.lookup "value" with
            | none => simp [hv, hw, hvalue]
            | some u =>
              cases hu : isPyNumber u with
              | false => simp [hv, hw, hu]
              | true => simp [hv, hw, hu]

/-- A value passes the `name` check exactly when it is a string that is
non-empty after stripping surrounding whitespace. -/
theorem isGoodName_iff (v : JsonValue) :
    isGoodName v = true ↔ ∃ s, v = .str s ∧ (pyStrip s).data ≠ [] := by
  cases v <;> simp [isGoodName, List.isEmpty_iff]

/-- C7: for a candidate mapping containing key `name` (and whose earlier
`id` checks pass, so that control reaches the `name` check), the
not-a-non-empty-string error for `name` is reported exactly when the value
at `name` is not a string that is non-empty after trimming leading and
trailing whitespace; in particular a non-string, the empty string, and a
whitespace-only string each fail this way. -/
theorem C7_name_check (kvs : List (String × JsonValue)) (idv v : JsonValue)
    (hid : kvs.lookup "id" = some idv) (hidty : isPyInt idv = true)
    (hname : kvs.lookup "name" = some v) :
    (validate_item (.obj kvs) =
        .error "field \x27name\x27 must be a non-empty string" ↔
      ¬ ∃ s, v = .str s ∧ (pyStrip s).data ≠ []) := by
  rw [validate_item, hid, ← isGoodName_iff v]
  cases hw : isGoodName v with
  | false => simp [hidty, hname, hw]
  | true =>
    cases hvalue : kvs.lookup "value" with
    | none => simp [hidty, hname, hw, hvalue]
    | some u =>
      cases hu : isPyNumber u with
      | false => simp [hidty, hname, hw, hvalue, hu]
      | true => simp [hidty, hname, hw, hvalue, hu]

/-- Witness for C7: a whitespace-only `name` is rejected with the
not-a-non-empty-string error. -/
theorem C7_witness :
    validate_item
        (.obj [("id", .int 1), ("name", .str "   "), ("value", .int 2)]) =
      .error "field \x27name\x27 must be a non-empty string" := by
  have h := C7_name_check
    [("id", .int 1), ("name", .str "   "), ("value", .int 2)]
    (.int 1) (.str "   ") rfl rfl rfl
  refine h.mpr ?_
  rintro ⟨s, hs, hne⟩
  cases hs
  exact hne (by decide)

/-- The record `{"id": 7, "name": "flag", "value": true}`. -/
def itemBoolValue : JsonValue :=
  .obj [("id", .int 7), ("name", .str "flag"), ("value", .bool true)]

/-- C9: a candidate whose `id` is a non-boolean integer, whose `name` is a
valid string, and whose `value` is a boolean is accepted (Python's
`isinstance(v, (int, float))` is true for `bool`), and contributes
`float(True) = 1.0` or `float(False) = 0.0` to the total and `1` to the
count. -/
theorem C9_bool_value_accepted (kvs : List (String × JsonValue)) (n : Int)
    (s : String) (b : Bool)
    (hid : kvs.lookup "id" = some (.int n))
    (hname : kvs.lookup "name" = some (.str s))
    (hs : (pyStrip s).data ≠ [])
    (hvalue : kvs.lookup "value" = some (.bool b)) :
    validate_item (.obj kvs) = .ok () ∧
      itemFloat (.obj kvs) = (if b then 1 else 0) ∧
      processData (.list [.obj kvs]) =
        .ok ⟨1, if b then 1 else 0, if b then 1 else 0⟩ := by
  have hval : validate_item (.obj kvs) = .ok () := by
    rw [validate_item, hid]
    simp [isPyInt, hname, isGoodName, isPyNumber, hvalue, List.isEmpty_iff, hs]
  have hfl : itemFloat (.obj kvs) = (if b then 1 else 0) := by
    rw [itemFloat, hvalue]
    rfl
  refine ⟨hval, hfl, ?_⟩
  simp [processData, processItems, hval, hfl]

/-- Witness for C9: the record with boolean `value` `True` is counted with
contribution 1.0, giving summary count 1, total 1.0, average 1.0. -/
theorem C9_witness :
    validate_item itemBoolValue = .ok () ∧
      itemFloat itemBoolValue = 1 ∧
      processData (.list [itemBoolValue]) = .ok ⟨1, 1, 1⟩ := by
  have h := C9_bool_value_accepted
    [("id", .int 7), ("name", .str "flag"), ("value", .bool true)]
    7 "flag" true rfl rfl (by decide) rfl
  simpa [itemBoolValue] using h

/-- The `value` field of a candidate object, if any. -/
def valueField : JsonValue → Option JsonValue
  | .obj kvs => kvs.lookup "value"
  | _ => none

/-- `itemFloat` reads only the `value` field of an item. -/
theorem itemFloat_eq_valueField (item : JsonValue) :
    itemFloat item = (valueField item).elim 0 pyFloat := by
  cases item with
  | obj kvs => cases h : kvs.lookup "value" <;> simp [itemFloat, valueField, h]
  | null => rfl
  | bool b => rfl
  | int n => rfl
  | float q => rfl
  | str s => rfl
  | list xs => rfl

/-- C10: a mapping whose `id`, `name` and `value` fields are valid is
accepted whatever additional keys it carries (the association list is
constrained only through the three lookups), and the summary of a run
depends only on the elements' `value` fields: two all-valid lists with the
same `value` fields element by element produce the same summary. -/
theorem C10_extra_keys_irrelevant :
    (∀ (kvs : List (String × JsonValue)) (idv namev valuev : JsonValue),
        kvs.lookup "id" = some idv → isPyInt idv = true →
        kvs.lookup "name" = some namev → isGoodName namev = true →
        kvs.lookup "value" = some valuev → isPyNumber valuev = true →
        validate_item (.obj kvs) = .ok ()) ∧
      (∀ items itemsB : List JsonValue,
        (∀ x ∈ items, validate_item x = .ok ()) →
        (∀ x ∈ itemsB, validate_item x = .ok ()) →
        items.map valueField = itemsB.map valueField →
        processData (.list items) = processData (.list itemsB)) := by
  constructor
  · intro kvs idv namev valuev hid hidty hname hnamety hvalue hvaluety
    rw [validate_item, hid]
    simp [hidty, hname, hnamety, hvalue, hvaluety]
  · intro items itemsB hA hB hmap
    have hlen : items.length = itemsB.length := by
      have h := congrArg List.length hmap
      simpa using h
    have hfun : itemFloat = fun x => (valueField x).elim 0 pyFloat :=
      funext itemFloat_eq_valueField
    have hfl : items.map itemFloat = itemsB.map itemFloat := by
      calc items.map itemFloat
          = (items.map valueField).map
              (fun o : Option JsonValue => o.elim 0 pyFloat) := by
            rw [hfun, List.map_map]
            rfl
        _ = (itemsB.map valueField).map
              (fun o : Option JsonValue => o.elim 0 pyFloat) := by
            rw [hmap]
        _ = itemsB.map itemFloat := by
            rw [hfun, List.map_map]
            rfl
    have hsum : sumFloats items = sumFloats itemsB := by
      unfold sumFloats
      rw [hfl]
    rw [processData, processItems_all_ok items hA 0 0]
    rw [processData, processItems_all_ok itemsB hB 0 0]
    rw [hlen, hsum]

/-- `itemA` with an extra key: `{"id":1,"name":"a","value":5.0,"extra":null}`. -/
def itemAextra : JsonValue :=
  .obj [("id", .int 1), ("name", .str "a"), ("value", .float 5),
        ("extra", .null)]

/-- Witness for C10: the record with an extra key validates, and the run
on it yields the same summary as the run on `itemA` without the key. -/
theorem C10_witness :
    validate_item itemAextra = .ok () ∧
      processData (.list [itemA]) = processData (.list [itemAextra]) := by
  constructor
  · exact C10_extra_keys_irrelevant.1
      [("id", .int 1), ("name", .str "a"), ("value", .float 5),
       ("extra", .null)]
      (.int 1) (.str "a") (.float 5) rfl rfl rfl (by decide) rfl rfl
  · exact C10_extra_keys_irrelevant.2 [itemA] [itemAextra]
      (by intro x hx
          simp only [List.mem_cons, List.not_mem_nil, or_false] at hx
          subst hx
          rfl)
      (by intro x hx
          simp only [List.mem_cons, List.not_mem_nil, or_false] at hx
          subst hx
          rfl)
      rfl
